import Mathlib

/-!
Shallow embedding of the Flask application in
`src/Simple Linear Regression /Models/California Housing/app.py`.

The application loads a pickled regression model at module import time,
serves a static form on GET `/`, and on POST `/predict` parses the form
field `income` with Python's `float`, calls `model.predict(np.array([[income]]))[0]`,
and renders the page with either the prediction and the echoed income or,
if anything in the try body raises, with `error=str(e)` only.

Python exceptions are modelled with `Except String`: an exception is its
`str(e)` message. The external library pieces that the handler calls but
that are not code of this repository are parameters of the embedding:
`parse : String → Option V` is Python's `float` applied to a string
(returns `none` exactly when `float` raises `ValueError`; the message CPython
attaches is modelled concretely by `floatErrMsg`), and
`modelPredict : List (List V) → Except String (List V)` is the opaque
unpickled model's `predict` method on a 2-d array, which may raise.
The numeric type `V` is abstract; the handler never computes with values,
it only passes them through.
-/

namespace CaliforniaHousing

/-- A rendered `index.html` view, as produced by `render_template`.
The fields mirror the keyword arguments the handler passes to
`render_template('index.html', ...)`; an absent keyword is `none`.
`render_template` always yields HTTP status 200. -/
structure Response (V : Type) where
  status : Nat
  prediction : Option V
  income : Option V
  error : Option String
  deriving Repr, DecidableEq

variable {V : Type}

/-- The bare form view: `render_template('index.html')`. -/
def renderIndex : Response V :=
  { status := 200, prediction := none, income := none, error := none }

/-- The success view: `render_template('index.html', prediction=p, income=inc)`. -/
def renderPrediction (p inc : V) : Response V :=
  { status := 200, prediction := some p, income := some inc, error := none }

/-- The failure view: `render_template('index.html', error=e)`. -/
def renderError (e : String) : Response V :=
  { status := 200, prediction := none, income := none, error := some e }

/-- The `str` of the `BadRequestKeyError` that Flask raises when
`request.form['income']` is accessed and the key is absent. It is a
subclass of `Exception`, so the handler's `except Exception` catches it. -/
def badRequestMsg : String :=
  "400 Bad Request: The browser (or proxy) sent a request that our server could not understand."

/-- `request.form[key]`: the first value bound to `key` in the submitted
form data, raising Flask's `BadRequestKeyError` when the key is absent. -/
def formGetExc (form : List (String × String)) (key : String) : Except String String :=
  match form.lookup key with
  | some v => Except.ok v
  | none => Except.error badRequestMsg

/-- The `str` of the `ValueError` CPython raises for `float(s)` on a
non-numeric string `s`. -/
def floatErrMsg (s : String) : String :=
  "could not convert string to float: '" ++ s ++ "'"

/-- Python's `float` on a form string: `parse` is the underlying partial
parsing function of the runtime; on failure a `ValueError` carrying
`floatErrMsg s` is raised. -/
def pyFloat (parse : String → Option V) (s : String) : Except String V :=
  match parse s with
  | some v => Except.ok v
  | none => Except.error (floatErrMsg s)

/-- Indexing `[0]` on the 1-d array returned by `model.predict`, raising
`IndexError` when the array is empty. -/
def ndGet0 : List V → Except String V
  | [] => Except.error "index 0 is out of bounds for axis 0 with size 0"
  | x :: _ => Except.ok x

/-- The `home` route handler: GET `/` returns the bare form view. -/
def home : Response V := renderIndex

/-- The try block of the `predict` handler, step by step:
read `request.form['income']`, apply `float`, call
`model.predict(np.array([[income]]))`, take element `[0]`, and render the
success view. The first raised exception aborts the rest of the block. -/
def predictBody (parse : String → Option V)
    (modelPredict : List (List V) → Except String (List V))
    (form : List (String × String)) : Except String (Response V) :=
  match formGetExc form "income" with
  | Except.error e => Except.error e
  | Except.ok s =>
    match pyFloat parse s with
    | Except.error e => Except.error e
    | Except.ok income =>
      match modelPredict [[income]] with
      | Except.error e => Except.error e
      | Except.ok arr =>
        match ndGet0 arr with
        | Except.error e => Except.error e
        | Except.ok prediction => Except.ok (renderPrediction prediction income)

/-- The `predict` route handler: POST `/predict` runs the try block and,
on any exception `e`, renders `render_template('index.html', error=str(e))`. -/
def predict (parse : String → Option V)
    (modelPredict : List (List V) → Except String (List V))
    (form : List (String × String)) : Response V :=
  match predictBody parse modelPredict form with
  | Except.ok r => r
  | Except.error e => renderError e

/-- The process-wide state of the server: the single predictor object
bound to the module-level variable `model` by `joblib.load`. -/
structure AppState (V : Type) where
  model : List (List V) → Except String (List V)

/-- An incoming HTTP request to one of the two routes. -/
inductive Request where
  | getHome : Request
  | postPredict : List (String × String) → Request

/-- Dispatch one request to its route handler. Each handler reads the
process state and never writes it. -/
def handleRequest (parse : String → Option V) (st : AppState V) :
    Request → Response V × AppState V
  | Request.getHome => (home, st)
  | Request.postPredict form => (predict parse st.model form, st)

/-- Serve a sequence of requests, threading the process state through. -/
def runRequests (parse : String → Option V) (st : AppState V) :
    List Request → List (Response V) × AppState V
  | [] => ([], st)
  | r :: rs =>
    let step := handleRequest parse st r
    let rest := runRequests parse step.2 rs
    (step.1 :: rest.1, rest.2)

/-- The whole process: `model = joblib.load('slr_model.pkl')` runs at
module import, before the server starts. `loadResult` is the outcome of
the deserialization; if it raises, the import fails and no request is
ever served, otherwise the server handles the incoming requests with the
loaded model. -/
def startServer (loadResult : Except String (List (List V) → Except String (List V)))
    (parse : String → Option V) (reqs : List Request) :
    Except String (List (Response V)) :=
  match loadResult with
  | Except.error e => Except.error e
  | Except.ok m => Except.ok (runRequests parse { model := m } reqs).1

/-- What the handler does after the parsed value `inc` reaches the
predictor: the rest of the try block as a function of the predictor's
answer on `[[inc]]` alone. -/
def afterPredict (res : Except String (List V)) (inc : V) : Response V :=
  match res with
  | Except.error e => renderError e
  | Except.ok arr =>
    match ndGet0 arr with
    | Except.error e => renderError e
    | Except.ok p => renderPrediction p inc

/-- Accumulating decimal parse over a character list, used by `intParse`. -/
def parseNatChars : Option Nat → List Char → Option Nat
  | acc, [] => acc
  | acc, c :: cs =>
    if c.isDigit then parseNatChars (some ((acc.getD 0) * 10 + (c.toNat - 48))) cs else none

/-- A concrete parsing function (decimal integers, optional leading minus)
used to instantiate the abstract Python `float` in witnesses and
counterexamples; theorems quantify over the parsing function. -/
def intParse (s : String) : Option Int :=
  match s.data with
  | '-' :: cs => (parseNatChars none cs).map (fun n => -(n : Int))
  | cs => (parseNatChars none cs).map (fun n => (n : Int))

/-- Claim C1 as frozen says that every parseable income string yields a
prediction and no error; it is refuted when the predictor itself raises,
because the catch-all branch then renders the error view instead. Here the
string 7 parses, yet the response carries an error and no prediction. -/
theorem C1_counterexample :
    intParse "7" = some 7 ∧
    (predict intParse (fun _ => Except.error "boom") [("income", "7")]).error = some "boom" ∧
    (predict intParse (fun _ => Except.error "boom") [("income", "7")]).prediction = none := by
  refine ⟨by decide, by decide, by decide⟩

/-- Claim C1, amended: for every string s that parses as a number, if the
predictor call on the single-feature vector succeeds with a nonempty
result array, the POST response is the success view carrying the first
element of that array as the prediction and the parsed income, with no
error. -/
theorem C1_success_renders_prediction (parse : String → Option V)
    (f : List (List V) → Except String (List V))
    (form : List (String × String)) (s : String) (v p : V) (ps : List V)
    (hs : form.lookup "income" = some s)
    (hv : parse s = some v)
    (hf : f [[v]] = Except.ok (p :: ps)) :
    predict parse f form = renderPrediction p v := by
  simp [predict, predictBody, formGetExc, hs, pyFloat, hv, hf, ndGet0]

/-- Witness for C1_success_renders_prediction at a concrete input. -/
theorem C1_success_witness :
    [("income", "7")].lookup "income" = some "7" ∧
    intParse "7" = some 7 ∧
    predict intParse (fun _ => Except.ok [(42 : Int)]) [("income", "7")]
      = renderPrediction 42 7 :=
  ⟨by decide, by decide,
    C1_success_renders_prediction intParse _ _ "7" 7 42 [] (by decide) (by decide) rfl⟩

/-- Claim C2: for every income string on which the Python float parse
fails, the POST response is the error view carrying the ValueError
message, which is a nonempty string, and it carries no prediction. -/
theorem C2_parse_failure_renders_error (parse : String → Option V)
    (f : List (List V) → Except String (List V))
    (form : List (String × String)) (s : String)
    (hs : form.lookup "income" = some s)
    (hv : parse s = none) :
    predict parse f form = renderError (floatErrMsg s) ∧
    (predict parse f form).error = some (floatErrMsg s) ∧
    (predict parse f form).prediction = none ∧
    floatErrMsg s ≠ "" := by
  have h : predict parse f form = renderError (floatErrMsg s) := by
    simp [predict, predictBody, formGetExc, hs, pyFloat, hv]
  refine ⟨h, by rw [h]; rfl, by rw [h]; rfl, ?_⟩
  intro hcontra
  have hlen := congrArg String.length hcontra
  rw [floatErrMsg, String.length_append, String.length_append] at hlen
  have h1 : "could not convert string to float: '".length = 36 := by decide
  have h2 : ("'" : String).length = 1 := by decide
  have h3 : ("" : String).length = 0 := by decide
  rw [h1, h2, h3] at hlen
  omega

/-- Witness for C2_parse_failure_renders_error at a concrete input. -/
theorem C2_parse_failure_witness :
    [("income", "abc")].lookup "income" = some "abc" ∧
    intParse "abc" = none ∧
    (predict intParse (fun _ => Except.ok [(42 : Int)]) [("income", "abc")]
        = renderError (floatErrMsg "abc") ∧
      (predict intParse (fun _ => Except.ok [(42 : Int)]) [("income", "abc")]).error
        = some (floatErrMsg "abc") ∧
      (predict intParse (fun _ => Except.ok [(42 : Int)]) [("income", "abc")]).prediction
        = none ∧
      floatErrMsg "abc" ≠ "") :=
  ⟨by decide, by decide,
    C2_parse_failure_renders_error intParse _ _ "abc" (by decide) (by decide)⟩

/-- Claim C3: whether the income field fails to parse or the predictor
raises, the handler returns a normal status-200 form view carrying an
error message rather than propagating the exception, and the subsequent
requests are served exactly as they would be without this request. -/
theorem C3_failures_swallowed (parse : String → Option V) (st : AppState V)
    (form : List (String × String)) (rest : List Request)
    (h : (∃ s, form.lookup "income" = some s ∧ parse s = none) ∨
         (∃ s v, form.lookup "income" = some s ∧ parse s = some v ∧
           ∃ e, st.model [[v]] = Except.error e)) :
    (∃ msg, predict parse st.model form = renderError msg) ∧
    (predict parse st.model form).status = 200 ∧
    (runRequests parse st (Request.postPredict form :: rest)).1 =
      predict parse st.model form :: (runRequests parse st rest).1 := by
  have hmain : ∃ msg, predict parse st.model form = renderError msg := by
    rcases h with ⟨s, hs, hv⟩ | ⟨s, v, hs, hv, e, hf⟩
    · exact ⟨floatErrMsg s, by simp [predict, predictBody, formGetExc, hs, pyFloat, hv]⟩
    · exact ⟨e, by simp [predict, predictBody, formGetExc, hs, pyFloat, hv, hf]⟩
  obtain ⟨msg, hmsg⟩ := hmain
  refine ⟨⟨msg, hmsg⟩, by rw [hmsg]; rfl, ?_⟩
  simp [runRequests, handleRequest]

/-- Witness for C3_failures_swallowed at a concrete input. -/
theorem C3_failures_witness :
    ((∃ s, [("income", "abc")].lookup "income" = some s ∧ intParse s = none) ∨
      (∃ s v, [("income", "abc")].lookup "income" = some s ∧ intParse s = some v ∧
        ∃ e, (AppState.mk (fun _ => Except.ok [(42 : Int)])).model [[v]] = Except.error e)) ∧
    ((∃ msg, predict intParse (fun _ => Except.ok [(42 : Int)]) [("income", "abc")]
        = renderError msg) ∧
      (predict intParse (fun _ => Except.ok [(42 : Int)]) [("income", "abc")]).status = 200 ∧
      (runRequests intParse (AppState.mk (fun _ => Except.ok [(42 : Int)]))
          (Request.postPredict [("income", "abc")] :: [Request.getHome])).1 =
        predict intParse (fun _ => Except.ok [(42 : Int)]) [("income", "abc")] ::
          (runRequests intParse (AppState.mk (fun _ => Except.ok [(42 : Int)]))
            [Request.getHome]).1) :=
  ⟨Or.inl ⟨"abc", by decide, by decide⟩,
    C3_failures_swallowed intParse (AppState.mk (fun _ => Except.ok [(42 : Int)]))
      [("income", "abc")] [Request.getHome] (Or.inl ⟨"abc", by decide, by decide⟩)⟩

/-- Claim C4: a POST whose form data has no income key takes the error
path with the nonempty message of the caught BadRequestKeyError, without
crashing, just like a parse failure renders the error view. -/
theorem C4_missing_field_error_path (parse : String → Option V)
    (f : List (List V) → Except String (List V))
    (form : List (String × String))
    (h : form.lookup "income" = none) :
    predict parse f form = renderError badRequestMsg ∧
    (predict parse f form).prediction = none ∧
    badRequestMsg ≠ "" := by
  have hmain : predict parse f form = renderError badRequestMsg := by
    simp [predict, predictBody, formGetExc, h]
  exact ⟨hmain, by rw [hmain]; rfl, by decide⟩

/-- Witness for C4_missing_field_error_path at a concrete input. -/
theorem C4_missing_field_witness :
    [("other", "1")].lookup "income" = none ∧
    (predict intParse (fun _ => Except.ok [(42 : Int)]) [("other", "1")]
        = renderError badRequestMsg ∧
      (predict intParse (fun _ => Except.ok [(42 : Int)]) [("other", "1")]).prediction
        = none ∧
      badRequestMsg ≠ "") :=
  ⟨by decide,
    C4_missing_field_error_path intParse (fun _ => Except.ok [(42 : Int)])
      [("other", "1")] (by decide)⟩

/-- Claim C5: after any sequence of prior requests, a GET on the root
route returns the static form view with no prediction and no error; the
response is a constant independent of the earlier requests. -/
theorem C5_home_static (parse : String → Option V) (st : AppState V)
    (prior : List Request) :
    (handleRequest parse (runRequests parse st prior).2 Request.getHome).1 =
      { status := 200, prediction := none, income := none, error := none } := by
  rfl

/-- Claim C6: if deserializing the model artifact at startup fails, the
process fails with that error before serving anything: for every request
sequence no response at all is produced. -/
theorem C6_startup_failfast (parse : String → Option V)
    (loadResult : Except String (List (List V) → Except String (List V)))
    (e : String) (reqs : List Request)
    (h : loadResult = Except.error e) :
    startServer loadResult parse reqs = Except.error e := by
  rw [h]
  rfl

/-- Witness for C6_startup_failfast at a concrete input. -/
theorem C6_startup_witness :
    (Except.error "FileNotFoundError" :
        Except String (List (List Int) → Except String (List Int)))
      = Except.error "FileNotFoundError" ∧
    startServer (Except.error "FileNotFoundError") intParse
        [Request.getHome, Request.postPredict [("income", "7")]]
      = Except.error "FileNotFoundError" :=
  ⟨rfl, C6_startup_failfast intParse (Except.error "FileNotFoundError")
    "FileNotFoundError" [Request.getHome, Request.postPredict [("income", "7")]] rfl⟩

/-- Claim C7: for every value v the parse produces, with no condition on
v whatsoever (negative, zero, or any other value of the numeric type),
the handler forwards v unchanged to the predictor as the single-feature
single-row vector, and the rest of the response is a function of the
predictor's answer on that vector and of v alone. -/
theorem C7_no_range_validation (parse : String → Option V)
    (f : List (List V) → Except String (List V))
    (form : List (String × String)) (s : String) (v : V)
    (hs : form.lookup "income" = some s)
    (hv : parse s = some v) :
    predict parse f form = afterPredict (f [[v]]) v := by
  simp only [predict, predictBody, formGetExc, hs, pyFloat, hv, afterPredict]
  cases hf : f [[v]] with
  | error e => rfl
  | ok arr => cases arr <;> rfl

/-- Witness for C7_no_range_validation at a concrete negative input. -/
theorem C7_no_range_witness :
    [("income", "-3")].lookup "income" = some "-3" ∧
    intParse "-3" = some (-3) ∧
    predict intParse (fun _ => Except.ok [(42 : Int)]) [("income", "-3")]
      = afterPredict (Except.ok [(42 : Int)]) (-3) :=
  ⟨by decide, by decide,
    C7_no_range_validation intParse (fun _ => Except.ok [(42 : Int)])
      [("income", "-3")] "-3" (-3) (by decide) (by decide)⟩

/-- Claim C8: the predictor held in process state is never reassigned by
any request handler: dispatching one request, and serving any sequence of
requests, returns the state it was given. -/
theorem C8_state_readonly (parse : String → Option V) (st : AppState V)
    (r : Request) (reqs : List Request) :
    (handleRequest parse st r).2 = st ∧ (runRequests parse st reqs).2 = st := by
  have hone : ∀ q : Request, (handleRequest parse st q).2 = st := by
    intro q
    cases q <;> rfl
  refine ⟨hone r, ?_⟩
  induction reqs with
  | nil => rfl
  | cons q qs ih =>
    rw [runRequests]
    simp only [hone q]
    exact ih

/-- Claim C9: when the income string parses but the predictor call then
raises, the response carries only the error string: the already parsed
income value is not echoed back and no prediction is rendered. -/
theorem C9_no_partial_result (parse : String → Option V)
    (f : List (List V) → Except String (List V))
    (form : List (String × String)) (s : String) (v : V) (e : String)
    (hs : form.lookup "income" = some s)
    (hv : parse s = some v)
    (hf : f [[v]] = Except.error e) :
    predict parse f form =
      { status := 200, prediction := none, income := none, error := some e } := by
  simp [predict, predictBody, formGetExc, hs, pyFloat, hv, hf, renderError]

/-- Witness for C9_no_partial_result at a concrete input. -/
theorem C9_no_partial_witness :
    [("income", "7")].lookup "income" = some "7" ∧
    intParse "7" = some 7 ∧
    (fun _ : List (List Int) => (Except.error "predict failed" : Except String (List Int)))
      [[(7 : Int)]] = Except.error "predict failed" ∧
    predict intParse (fun _ => Except.error "predict failed") [("income", "7")]
      = { status := 200, prediction := none, income := none, error := some "predict failed" } :=
  ⟨by decide, by decide, rfl,
    C9_no_partial_result intParse (fun _ => Except.error "predict failed")
      [("income", "7")] "7" 7 "predict failed" (by decide) (by decide) rfl⟩

/-- Claim C10: two POST requests whose form data bind the income field
identically receive identical responses, whatever their other fields are:
the handler reads nothing but the income binding. -/
theorem C10_only_income_matters (parse : String → Option V)
    (f : List (List V) → Except String (List V))
    (form1 form2 : List (String × String))
    (h : form1.lookup "income" = form2.lookup "income") :
    predict parse f form1 = predict parse f form2 := by
  rw [predict, predict, predictBody, predictBody, formGetExc, formGetExc, h]

/-- Witness for C10_only_income_matters on two concrete forms differing
outside the income field. -/
theorem C10_only_income_witness :
    [("income", "7"), ("other", "x")].lookup "income"
      = [("income", "7"), ("extra", "y")].lookup "income" ∧
    predict intParse (fun _ => Except.ok [(42 : Int)]) [("income", "7"), ("other", "x")]
      = predict intParse (fun _ => Except.ok [(42 : Int)]) [("income", "7"), ("extra", "y")] :=
  ⟨by decide,
    C10_only_income_matters intParse (fun _ => Except.ok [(42 : Int)])
      [("income", "7"), ("other", "x")] [("income", "7"), ("extra", "y")] (by decide)⟩

end CaliforniaHousing
